import Mathlib

/-!
Shallow embedding of the request handler in
src/python/apigw-http-api-lambda-dynamodb-python-cdk/lambda/apigw-handler/index.py.

The two functions of interest are `put_item_with_retry` and `handler`.  Both are
embedded as pure functions that return the ordered trace of their observable
effects (structured log events, backoff sleeps, and DynamoDB `put_item` calls)
together with the Python outcome (a value, or a raised exception) as an `Except`.

Collaborators are parameters:
  * the DynamoDB client is a function `store : Nat → StoreResult` giving the
    outcome of the put_item call made on the (0-based) attempt with that index;
  * `json.loads` is a function `loads : String → Except PyExc Json`;
  * the process environment is a function `env : String → Option String`
    (`os.environ.get`);
  * `str(uuid.uuid4())` is a parameter `fresh_id : String`.

Times are modelled in milliseconds as naturals: the source computes the wait as
`(2 ** attempt) * 0.1` seconds, which is `2 ^ attempt * 100` ms (scaling the
base by a power of two is exact, so nothing is lost by working in ms).
-/

namespace ApigwHandler

/-- A single-quote character, used when rendering Python `str()`/`repr()`. -/
def sq : String := String.singleton (Char.ofNat 39)

/-- A DynamoDB attribute value as built literally in index.py: either a
number-typed entry `\x7b"N": v\x7d` or a string-typed entry `\x7b"S": v\x7d`. -/
inductive Attr
  | N (value : String)
  | S (value : String)
deriving DecidableEq

/-- A DynamoDB item: the association list passed as `Item=` to `put_item`,
in the textual order of the Python dict literal. -/
abbrev DDBItem := List (String × Attr)

/-- A decoded JSON value, the possible results of `json.loads`.  Numeric
literals are modelled as integers (the bodies the spec discusses carry
integer years). -/
inductive Json
  | null
  | bool (b : Bool)
  | num (n : Int)
  | str (s : String)
  | arr (elems : List Json)
  | obj (fields : List (String × Json))

mutual

/-- Python `repr()` of a decoded JSON value (escaping of special characters
inside strings is elided; no claim exercises it). -/
def pyRepr : Json → String
  | Json.null => "None"
  | Json.bool true => "True"
  | Json.bool false => "False"
  | Json.num n => toString n
  | Json.str s => sq ++ s ++ sq
  | Json.arr es => "[" ++ pyReprElems es ++ "]"
  | Json.obj fs => "\x7b" ++ pyReprFields fs ++ "\x7d"

/-- Comma-separated `repr()` of list elements. -/
def pyReprElems : List Json → String
  | [] => ""
  | [x] => pyRepr x
  | x :: xs => pyRepr x ++ ", " ++ pyReprElems xs

/-- Comma-separated `repr()` of dict entries. -/
def pyReprFields : List (String × Json) → String
  | [] => ""
  | [(k, v)] => sq ++ k ++ sq ++ ": " ++ pyRepr v
  | (k, v) :: xs => sq ++ k ++ sq ++ ": " ++ pyRepr v ++ ", " ++ pyReprFields xs

end

/-- Python `str()` of a decoded JSON value: identity on strings, decimal form
on numbers, `True`/`False`/`None` on booleans and null, `repr()`-rendering on
containers. -/
def pyStr : Json → String
  | Json.str s => s
  | v => pyRepr v

/-- The Python exceptions the handler can raise or observe. -/
inductive PyExc
  | clientError (code : String) (msg : String)
  | jsonDecodeError (msg : String)
  | keyError (key : String)
  | other (ty : String) (msg : String)
deriving DecidableEq

/-- `type(e).__name__`, as logged in the handler's "error" event. -/
def PyExc.typeName : PyExc → String
  | PyExc.clientError _ _ => "ClientError"
  | PyExc.jsonDecodeError _ => "JSONDecodeError"
  | PyExc.keyError _ => "KeyError"
  | PyExc.other ty _ => ty

/-- `str(e)`, as logged in the handler's "error" event.  `str` of a KeyError
is the `repr` of the missing key. -/
def PyExc.message : PyExc → String
  | PyExc.clientError _ m => m
  | PyExc.jsonDecodeError m => m
  | PyExc.keyError k => sq ++ k ++ sq
  | PyExc.other _ m => m

/-- Outcome of one `dynamodb_client.put_item` call: success, a raised
botocore `ClientError` carrying an error code, or any other raised
exception (which the `except ClientError` clause does not catch). -/
inductive StoreResult
  | ok
  | throwClientError (code : String) (msg : String)
  | throwOther (ty : String) (msg : String)
deriving DecidableEq

/-- One observable effect, in program order: the structured log events of
index.py, the `time.sleep` calls, and the `put_item` calls. -/
inductive Ev
  | requestReceived (requestId : String)
      (sourceIp httpMethod path : Option String)
  | processingRequest (requestId : String) (itemId : Option Json)
  | processingDefaultRequest (requestId : String)
  | putAttempt (table : Option String) (item : DDBItem)
  | throttled (requestId : String) (attempt : Nat) (waitMs : Nat)
      (errorCode : String)
  | sleep (waitMs : Nat)
  | throttledMaxRetries (requestId : String) (errorCode : String)
  | writeSuccess (requestId : String) (table : Option String) (itemId : String)
  | error (requestId : String) (errorType : String) (errorMessage : String)

/-- Is this event a `put_item` call on the store? -/
def Ev.isPutAttempt : Ev → Bool
  | Ev.putAttempt _ _ => true
  | _ => false

/-- Is this event the "dynamodb_throttled" warning? -/
def Ev.isThrottled : Ev → Bool
  | Ev.throttled _ _ _ _ => true
  | _ => false

/-- Is this event a backoff sleep? -/
def Ev.isSleep : Ev → Bool
  | Ev.sleep _ => true
  | _ => false

/-- Is this event the "dynamodb_throttled_max_retries" error event? -/
def Ev.isExhausted : Ev → Bool
  | Ev.throttledMaxRetries _ _ => true
  | _ => false

/-- Is this event the handler's "error" event? -/
def Ev.isErrorEvent : Ev → Bool
  | Ev.error _ _ _ => true
  | _ => false

/-- Is this event the "processing_request" info event? -/
def Ev.isProcessingRequest : Ev → Bool
  | Ev.processingRequest _ _ => true
  | _ => false

/-- Total milliseconds slept in a trace. -/
def sleepTotal (evs : List Ev) : Nat :=
  (evs.map fun e => match e with | Ev.sleep ms => ms | _ => 0).sum

/-- The throttling error codes that index.py retries:
`error_code in ['ProvisionedThroughputExceededException', 'ThrottlingException']`. -/
def isThrottleCode (code : String) : Bool :=
  code == "ProvisionedThroughputExceededException" || code == "ThrottlingException"

/-- The `for attempt in range(max_retries)` loop of `put_item_with_retry`,
as structural recursion on `fuel`, the number of loop iterations still
available; the top-level call has `fuel = max_retries` and maintains
`attempt + fuel = max_retries`.  Running out of fuel is the loop completing,
which reaches the trailing `return False`.  Each iteration calls `put_item`
(traced as `putAttempt`); on success it returns `True`; on a `ClientError`
with a throttling code it either logs the "dynamodb_throttled" warning,
sleeps `2 ^ attempt * 100` ms and continues (when `attempt < max_retries - 1`),
or logs "dynamodb_throttled_max_retries" and re-raises; any other error is
re-raised at once. -/
def putRetryGo (store : Nat → StoreResult) (table : Option String)
    (item : DDBItem) (request_id : String) (max_retries : Nat) :
    Nat → Nat → List Ev × Except PyExc Bool
  | _, 0 => ([], Except.ok false)
  | attempt, fuel + 1 =>
    match store attempt with
    | StoreResult.ok => ([Ev.putAttempt table item], Except.ok true)
    | StoreResult.throwClientError code msg =>
      if isThrottleCode code then
        if attempt < max_retries - 1 then
          let wait_ms := 2 ^ attempt * 100
          let rest := putRetryGo store table item request_id max_retries
            (attempt + 1) fuel
          (Ev.putAttempt table item ::
             Ev.throttled request_id (attempt + 1) wait_ms code ::
             Ev.sleep wait_ms :: rest.1,
           rest.2)
        else
          ([Ev.putAttempt table item,
            Ev.throttledMaxRetries request_id code],
           Except.error (PyExc.clientError code msg))
      else
        ([Ev.putAttempt table item],
         Except.error (PyExc.clientError code msg))
    | StoreResult.throwOther ty msg =>
      ([Ev.putAttempt table item], Except.error (PyExc.other ty msg))

/-- `put_item_with_retry(table, item, request_id, max_retries=3)` from
index.py, with the store behavior as an explicit parameter. -/
def put_item_with_retry (store : Nat → StoreResult) (table : Option String)
    (item : DDBItem) (request_id : String) (max_retries : Nat := 3) :
    List Ev × Except PyExc Bool :=
  putRetryGo store table item request_id max_retries 0 max_retries

/-- Python `item.get(key)`: `None`-defaulting lookup on a dict, and an
`AttributeError` on any non-dict value (none of which has a `.get`
attribute). -/
def Json.pyGet : Json → String → Except PyExc (Option Json)
  | Json.obj fields, key => Except.ok (fields.lookup key)
  | _, _ => Except.error (PyExc.other "AttributeError" "object has no attribute get")

/-- Python `item[key]` on a decoded JSON value: a `KeyError` when the dict
lacks the key, and a `TypeError` on non-dict values. -/
def Json.pyIndex : Json → String → Except PyExc Json
  | Json.obj fields, key =>
    match fields.lookup key with
    | some v => Except.ok v
    | none => Except.error (PyExc.keyError key)
  | _, _ => Except.error (PyExc.other "TypeError" "object is not subscriptable")

/-- The request envelope: the optional raw `body` text and the request
context fields read for the "request_received" log line. -/
structure Request where
  body : Option String
  sourceIp : Option String
  httpMethod : Option String
  path : Option String

/-- The response envelope built by the handler. -/
structure Response where
  statusCode : Nat
  contentType : String
  body : String
deriving DecidableEq

/-- Python truthiness of `event["body"]`: `None` and the empty string are
falsy, every other string is truthy. -/
def bodyTruthy : Option String → Bool
  | none => false
  | some s => !(s == "")

/-- The one success response of index.py: status 200, JSON content type,
and body `json.dumps(\x7b"message": "Successfully inserted data!"\x7d)`. -/
def successResponse : Response :=
  { statusCode := 200
    contentType := "application/json"
    body := "\x7b\"message\": \"Successfully inserted data!\"\x7d" }

/-- The `try:` block of `handler`: the body-present branch parses the body,
logs "processing_request" with `item.get("id")`, extracts and stringifies
`year`, `title`, `id` in that order, writes the three-field item via
`put_item_with_retry`, logs "dynamodb_write_success" and returns the 200
response; the body-absent branch logs "processing_default_request" and
writes the fixed default record with a fresh identifier.  The returned
`Except` is the block's outcome before the `except Exception` clause. -/
def handlerBody (loads : String → Except PyExc Json)
    (store : Nat → StoreResult) (table : Option String)
    (request_id fresh_id : String) (body : Option String) :
    List Ev × Except PyExc Response :=
  if bodyTruthy body then
    match loads (body.getD "") with
    | Except.error e => ([], Except.error e)
    | Except.ok item =>
      match item.pyGet "id" with
      | Except.error e => ([], Except.error e)
      | Except.ok item_id =>
        match item.pyIndex "year" with
        | Except.error e =>
          ([Ev.processingRequest request_id item_id], Except.error e)
        | Except.ok jyear =>
          match item.pyIndex "title" with
          | Except.error e =>
            ([Ev.processingRequest request_id item_id], Except.error e)
          | Except.ok jtitle =>
            match item.pyIndex "id" with
            | Except.error e =>
              ([Ev.processingRequest request_id item_id], Except.error e)
            | Except.ok jid =>
              match put_item_with_retry store table
                  [("year", Attr.N (pyStr jyear)),
                   ("title", Attr.S (pyStr jtitle)),
                   ("id", Attr.S (pyStr jid))] request_id with
              | (evs, Except.error e) =>
                (Ev.processingRequest request_id item_id :: evs,
                 Except.error e)
              | (evs, Except.ok _) =>
                (Ev.processingRequest request_id item_id :: evs ++
                   [Ev.writeSuccess request_id table (pyStr jid)],
                 Except.ok successResponse)
  else
    match put_item_with_retry store table
        [("year", Attr.N "2012"),
         ("title", Attr.S "The Amazing Spider-Man 2"),
         ("id", Attr.S fresh_id)] request_id with
    | (evs, Except.error e) =>
      (Ev.processingDefaultRequest request_id :: evs, Except.error e)
    | (evs, Except.ok _) =>
      (Ev.processingDefaultRequest request_id :: evs ++
         [Ev.writeSuccess request_id table fresh_id],
       Except.ok successResponse)

/-- `handler(event, context)` from index.py: read `TABLE_NAME` from the
environment, log "request_received", run the `try:` block, and on any
exception log the "error" event with the exception's type name and message
and re-raise. -/
def handler (loads : String → Except PyExc Json) (store : Nat → StoreResult)
    (env : String → Option String) (request_id fresh_id : String)
    (req : Request) : List Ev × Except PyExc Response :=
  match handlerBody loads store (env "TABLE_NAME") request_id fresh_id
      req.body with
  | (evs, Except.ok r) =>
    (Ev.requestReceived request_id req.sourceIp req.httpMethod req.path :: evs,
     Except.ok r)
  | (evs, Except.error e) =>
    (Ev.requestReceived request_id req.sourceIp req.httpMethod req.path ::
       evs ++ [Ev.error request_id e.typeName e.message],
     Except.error e)

/-! ### Helper lemmas about the retry loop -/

/-- Step equation: a successful `put_item` returns `True` at once. -/
lemma putRetryGo_step_ok (store : Nat → StoreResult) (tb : Option String)
    (it : DDBItem) (rid : String) (m a n : Nat)
    (h : store a = StoreResult.ok) :
    putRetryGo store tb it rid m a (n + 1) =
      ([Ev.putAttempt tb it], Except.ok true) := by
  rw [putRetryGo, h]

/-- Step equation: a throttling `ClientError` on a non-final attempt logs the
warning, sleeps, and continues with the next attempt. -/
lemma putRetryGo_step_throttle_cont (store : Nat → StoreResult)
    (tb : Option String) (it : DDBItem) (rid : String) (m a n : Nat)
    (c msg : String) (h : store a = StoreResult.throwClientError c msg)
    (hc : isThrottleCode c = true) (ha : a < m - 1) :
    putRetryGo store tb it rid m a (n + 1) =
      (Ev.putAttempt tb it ::
         Ev.throttled rid (a + 1) (2 ^ a * 100) c ::
         Ev.sleep (2 ^ a * 100) ::
         (putRetryGo store tb it rid m (a + 1) n).1,
       (putRetryGo store tb it rid m (a + 1) n).2) := by
  rw [putRetryGo, h]
  simp [hc, ha]

/-- Step equation: a throttling `ClientError` on the final attempt logs the
"max retries" error event and re-raises. -/
lemma putRetryGo_step_throttle_last (store : Nat → StoreResult)
    (tb : Option String) (it : DDBItem) (rid : String) (m a n : Nat)
    (c msg : String) (h : store a = StoreResult.throwClientError c msg)
    (hc : isThrottleCode c = true) (ha : ¬ a < m - 1) :
    putRetryGo store tb it rid m a (n + 1) =
      ([Ev.putAttempt tb it, Ev.throttledMaxRetries rid c],
       Except.error (PyExc.clientError c msg)) := by
  rw [putRetryGo, h]
  simp [hc, ha]

/-- Step equation: a non-throttling `ClientError` is re-raised at once. -/
lemma putRetryGo_step_nonthrottle (store : Nat → StoreResult)
    (tb : Option String) (it : DDBItem) (rid : String) (m a n : Nat)
    (c msg : String) (h : store a = StoreResult.throwClientError c msg)
    (hc : isThrottleCode c = false) :
    putRetryGo store tb it rid m a (n + 1) =
      ([Ev.putAttempt tb it], Except.error (PyExc.clientError c msg)) := by
  rw [putRetryGo, h]
  simp [hc]

/-- Step equation: any exception other than `ClientError` is not caught. -/
lemma putRetryGo_step_other (store : Nat → StoreResult) (tb : Option String)
    (it : DDBItem) (rid : String) (m a n : Nat) (ty msg : String)
    (h : store a = StoreResult.throwOther ty msg) :
    putRetryGo store tb it rid m a (n + 1) =
      ([Ev.putAttempt tb it], Except.error (PyExc.other ty msg)) := by
  rw [putRetryGo, h]

/-- Every `putAttempt` event in the retry loop's trace is a call on the
configured table with the item passed in. -/
lemma putRetryGo_putAttempt_eq (store : Nat → StoreResult) (tb : Option String)
    (it : DDBItem) (rid : String) (m : Nat) :
    ∀ fuel attempt e, e ∈ (putRetryGo store tb it rid m attempt fuel).1 →
      e.isPutAttempt = true → e = Ev.putAttempt tb it := by
  intro fuel
  induction fuel with
  | zero =>
    intro a e h _
    simp [putRetryGo] at h
  | succ n ih =>
    intro a e h hp
    cases hs : store a
    case ok =>
      rw [putRetryGo_step_ok store tb it rid m a n hs] at h
      simpa using h
    case throwClientError code msg =>
      cases hc : isThrottleCode code
      case true =>
        by_cases ha : a < m - 1
        · rw [putRetryGo_step_throttle_cont store tb it rid m a n code msg
            hs hc ha] at h
          rcases List.mem_cons.mp h with rfl | h
          · rfl
          rcases List.mem_cons.mp h with rfl | h
          · exact absurd hp (by simp [Ev.isPutAttempt])
          rcases List.mem_cons.mp h with rfl | h
          · exact absurd hp (by simp [Ev.isPutAttempt])
          exact ih (a + 1) e h hp
        · rw [putRetryGo_step_throttle_last store tb it rid m a n code msg
            hs hc ha] at h
          rcases List.mem_cons.mp h with rfl | h
          · rfl
          rcases List.mem_cons.mp h with rfl | h
          · exact absurd hp (by simp [Ev.isPutAttempt])
          exact absurd h (List.not_mem_nil e)
      case false =>
        rw [putRetryGo_step_nonthrottle store tb it rid m a n code msg
          hs hc] at h
        simpa using h
    case throwOther ty msg =>
      rw [putRetryGo_step_other store tb it rid m a n ty msg hs] at h
      simpa using h

/-- The retry loop never reaches the trailing `return False` when at least one
iteration is available: its outcome is never `Except.ok false`. -/
lemma putRetryGo_ne_false (store : Nat → StoreResult) (tb : Option String)
    (it : DDBItem) (rid : String) (m : Nat) :
    ∀ fuel attempt, attempt + fuel = m → 1 ≤ fuel →
      (putRetryGo store tb it rid m attempt fuel).2 ≠ Except.ok false := by
  intro fuel
  induction fuel with
  | zero =>
    intro a _ h1
    exact absurd h1 (by omega)
  | succ n ih =>
    intro a hinv _
    cases hs : store a
    case ok =>
      rw [putRetryGo_step_ok store tb it rid m a n hs]
      simp
    case throwClientError code msg =>
      cases hc : isThrottleCode code
      case true =>
        by_cases ha : a < m - 1
        · rw [putRetryGo_step_throttle_cont store tb it rid m a n code msg
            hs hc ha]
          exact ih (a + 1) (by omega) (by omega)
        · rw [putRetryGo_step_throttle_last store tb it rid m a n code msg
            hs hc ha]
          simp
      case false =>
        rw [putRetryGo_step_nonthrottle store tb it rid m a n code msg hs hc]
        simp
    case throwOther ty msg =>
      rw [putRetryGo_step_other store tb it rid m a n ty msg hs]
      simp

/-- If the store raises a throttling `ClientError` on every attempt, the loop
exhausts its budget and re-raises that error. -/
lemma putRetryGo_all_throttle (store : Nat → StoreResult) (tb : Option String)
    (it : DDBItem) (rid : String) (m : Nat) (c msg : String)
    (hc : isThrottleCode c = true)
    (hall : ∀ n, n < m → store n = StoreResult.throwClientError c msg) :
    ∀ fuel attempt, attempt + fuel = m → 1 ≤ fuel →
      (putRetryGo store tb it rid m attempt fuel).2 =
        Except.error (PyExc.clientError c msg) := by
  intro fuel
  induction fuel with
  | zero =>
    intro a _ h1
    exact absurd h1 (by omega)
  | succ n ih =>
    intro a hinv _
    have hs := hall a (by omega)
    by_cases ha : a < m - 1
    · rw [putRetryGo_step_throttle_cont store tb it rid m a n c msg hs hc ha]
      exact ih (a + 1) (by omega) (by omega)
    · rw [putRetryGo_step_throttle_last store tb it rid m a n c msg hs hc ha]

/-- The total sleep accumulated from attempt `a` on is at most the sum of the
backoff waits of the attempt indices below `max_retries - 1`. -/
lemma putRetryGo_sleepTotal_le (store : Nat → StoreResult) (tb : Option String)
    (it : DDBItem) (rid : String) (m : Nat) :
    ∀ fuel attempt,
      sleepTotal (putRetryGo store tb it rid m attempt fuel).1 ≤
        Finset.sum (Finset.Ico attempt (m - 1)) (fun i => 100 * 2 ^ i) := by
  intro fuel
  induction fuel with
  | zero =>
    intro a
    simp [putRetryGo, sleepTotal]
  | succ n ih =>
    intro a
    cases hs : store a
    case ok =>
      rw [putRetryGo_step_ok store tb it rid m a n hs]
      simp [sleepTotal]
    case throwClientError code msg =>
      cases hc : isThrottleCode code
      case true =>
        by_cases ha : a < m - 1
        · rw [putRetryGo_step_throttle_cont store tb it rid m a n code msg
            hs hc ha]
          have hrec := ih (a + 1)
          have hsum := Finset.sum_eq_sum_Ico_succ_bot ha
            (fun i => 100 * 2 ^ i)
          simp only [sleepTotal, List.map_cons, List.sum_cons] at hrec ⊢
          rw [hsum]
          omega
        · rw [putRetryGo_step_throttle_last store tb it rid m a n code msg
            hs hc ha]
          simp [sleepTotal]
      case false =>
        rw [putRetryGo_step_nonthrottle store tb it rid m a n code msg hs hc]
        simp [sleepTotal]
    case throwOther ty msg =>
      rw [putRetryGo_step_other store tb it rid m a n ty msg hs]
      simp [sleepTotal]

/-- The retry loop makes at most `fuel` `put_item` calls. -/
lemma putRetryGo_putAttempt_count_le (store : Nat → StoreResult)
    (tb : Option String) (it : DDBItem) (rid : String) (m : Nat) :
    ∀ fuel attempt,
      ((putRetryGo store tb it rid m attempt fuel).1.countP Ev.isPutAttempt) ≤
        fuel := by
  intro fuel
  induction fuel with
  | zero =>
    intro a
    simp [putRetryGo]
  | succ n ih =>
    intro a
    cases hs : store a
    case ok =>
      rw [putRetryGo_step_ok store tb it rid m a n hs]
      simp [List.countP_cons, Ev.isPutAttempt]
    case throwClientError code msg =>
      cases hc : isThrottleCode code
      case true =>
        by_cases ha : a < m - 1
        · rw [putRetryGo_step_throttle_cont store tb it rid m a n code msg
            hs hc ha]
          have hrec := ih (a + 1)
          simp [List.countP_cons, Ev.isPutAttempt]
          omega
        · rw [putRetryGo_step_throttle_last store tb it rid m a n code msg
            hs hc ha]
          simp [List.countP_cons, Ev.isPutAttempt]
      case false =>
        rw [putRetryGo_step_nonthrottle store tb it rid m a n code msg hs hc]
        simp [List.countP_cons, Ev.isPutAttempt]
    case throwOther ty msg =>
      rw [putRetryGo_step_other store tb it rid m a n ty msg hs]
      simp [List.countP_cons, Ev.isPutAttempt]

/-- Every successful outcome of the handler's `try:` block is the one
200 response. -/
lemma handlerBody_ok_eq (loads : String → Except PyExc Json)
    (store : Nat → StoreResult) (table : Option String)
    (rid fid : String) (body : Option String) (r : Response)
    (h : (handlerBody loads store table rid fid body).2 = Except.ok r) :
    r = successResponse := by
  unfold handlerBody at h
  split at h
  · split at h
    · exact absurd h (by simp)
    · split at h
      · exact absurd h (by simp)
      · split at h
        · exact absurd h (by simp)
        · split at h
          · exact absurd h (by simp)
          · split at h
            · exact absurd h (by simp)
            · split at h
              · exact absurd h (by simp)
              · exact (Except.ok.inj h).symm
  · split at h
    · exact absurd h (by simp)
    · exact (Except.ok.inj h).symm

/-- If the `try:` block fails, the handler logs the "error" event after the
block's trace and re-raises. -/
lemma handler_of_body_error (loads : String → Except PyExc Json)
    (store : Nat → StoreResult) (env : String → Option String)
    (rid fid : String) (req : Request) (evs : List Ev) (e : PyExc)
    (hbody : handlerBody loads store (env "TABLE_NAME") rid fid req.body =
      (evs, Except.error e)) :
    handler loads store env rid fid req =
      (Ev.requestReceived rid req.sourceIp req.httpMethod req.path ::
         evs ++ [Ev.error rid e.typeName e.message],
       Except.error e) := by
  simp [handler, hbody]

/-- If the `try:` block succeeds, the handler returns its value after the
"request_received" event. -/
lemma handler_of_body_ok (loads : String → Except PyExc Json)
    (store : Nat → StoreResult) (env : String → Option String)
    (rid fid : String) (req : Request) (evs : List Ev) (r : Response)
    (hbody : handlerBody loads store (env "TABLE_NAME") rid fid req.body =
      (evs, Except.ok r)) :
    handler loads store env rid fid req =
      (Ev.requestReceived rid req.sourceIp req.httpMethod req.path :: evs,
       Except.ok r) := by
  simp [handler, hbody]

/-- Every successful outcome of the handler is the one 200 response. -/
lemma handler_ok_eq (loads : String → Except PyExc Json)
    (store : Nat → StoreResult) (env : String → Option String)
    (rid fid : String) (req : Request) (r : Response)
    (h : (handler loads store env rid fid req).2 = Except.ok r) :
    r = successResponse := by
  cases hres : handlerBody loads store (env "TABLE_NAME") rid fid req.body with
  | mk evs r2 =>
    cases r2 with
    | ok r0 =>
      rw [handler_of_body_ok loads store env rid fid req evs r0 hres] at h
      have hr : r0 = r := Except.ok.inj h
      subst hr
      exact handlerBody_ok_eq loads store (env "TABLE_NAME") rid fid req.body
        r0 (by rw [hres])
    | error e =>
      rw [handler_of_body_error loads store env rid fid req evs e hres] at h
      exact absurd h (by simp)

/-! ### Claim theorems -/

/-- C1: for every request whose body is present, non-empty, decodes as a JSON
object and contains the fields id, year and title, every write request the
handler passes to the store carries exactly those three fields coerced to
string representation (a numeric year becoming its decimal string form), any
response returned is the 200 / application/json / success-message envelope,
and with a store that accepts the write the handler does return exactly that
envelope after writing the record. -/
theorem handler_valid_body_exact_fields
    (loads : String → Except PyExc Json) (store : Nat → StoreResult)
    (env : String → Option String) (rid fid : String) (req : Request)
    (body : String) (fields : List (String × Json)) (jy jt ji : Json)
    (hb : req.body = some body) (hne : body ≠ "")
    (hl : loads body = Except.ok (Json.obj fields))
    (hy : fields.lookup "year" = some jy)
    (ht : fields.lookup "title" = some jt)
    (hi : fields.lookup "id" = some ji) :
    (∀ e ∈ (handler loads store env rid fid req).1, e.isPutAttempt = true →
      e = Ev.putAttempt (env "TABLE_NAME")
        [("year", Attr.N (pyStr jy)), ("title", Attr.S (pyStr jt)),
         ("id", Attr.S (pyStr ji))])
    ∧ (∀ r, (handler loads store env rid fid req).2 = Except.ok r →
        r = successResponse)
    ∧ ((∀ n, store n = StoreResult.ok) →
        handler loads store env rid fid req =
          ([Ev.requestReceived rid req.sourceIp req.httpMethod req.path,
            Ev.processingRequest rid (some ji),
            Ev.putAttempt (env "TABLE_NAME")
              [("year", Attr.N (pyStr jy)), ("title", Attr.S (pyStr jt)),
               ("id", Attr.S (pyStr ji))],
            Ev.writeSuccess rid (env "TABLE_NAME") (pyStr ji)],
           Except.ok successResponse)) := by
  have hbt : bodyTruthy (some body) = true := by
    simp [bodyTruthy, hne]
  refine ⟨?_, fun r h => handler_ok_eq loads store env rid fid req r h, ?_⟩
  · intro e he hp
    cases hres : put_item_with_retry store (env "TABLE_NAME")
        [("year", Attr.N (pyStr jy)), ("title", Attr.S (pyStr jt)),
         ("id", Attr.S (pyStr ji))] rid with
    | mk evs rres =>
      have hmem : e ∈ evs → e = Ev.putAttempt (env "TABLE_NAME")
          [("year", Attr.N (pyStr jy)), ("title", Attr.S (pyStr jt)),
           ("id", Attr.S (pyStr ji))] := by
        intro hin
        refine putRetryGo_putAttempt_eq store (env "TABLE_NAME") _ rid 3 3 0
          e ?_ hp
        have : evs = (put_item_with_retry store (env "TABLE_NAME")
            [("year", Attr.N (pyStr jy)), ("title", Attr.S (pyStr jt)),
             ("id", Attr.S (pyStr ji))] rid).1 := by rw [hres]
        rw [this] at hin
        exact hin
      cases rres with
      | error e2 =>
        have hbody : handlerBody loads store (env "TABLE_NAME") rid fid
            req.body =
            (Ev.processingRequest rid (some ji) :: evs, Except.error e2) := by
          rw [hb]
          simp [handlerBody, hbt, hl, Json.pyGet, Json.pyIndex, hy, ht, hi,
            hres]
        rw [handler_of_body_error loads store env rid fid req _ e2 hbody]
          at he
        simp only [List.cons_append, List.mem_cons, List.mem_append,
          List.mem_singleton, List.not_mem_nil, or_false] at he
        rcases he with rfl | rfl | he | rfl
        · exact absurd hp (by simp [Ev.isPutAttempt])
        · exact absurd hp (by simp [Ev.isPutAttempt])
        · exact hmem he
        · exact absurd hp (by simp [Ev.isPutAttempt])
      | ok b =>
        have hbody : handlerBody loads store (env "TABLE_NAME") rid fid
            req.body =
            (Ev.processingRequest rid (some ji) :: evs ++
               [Ev.writeSuccess rid (env "TABLE_NAME") (pyStr ji)],
             Except.ok successResponse) := by
          rw [hb]
          simp [handlerBody, hbt, hl, Json.pyGet, Json.pyIndex, hy, ht, hi,
            hres]
        rw [handler_of_body_ok loads store env rid fid req _ _ hbody] at he
        simp only [List.cons_append, List.mem_cons, List.mem_append,
          List.mem_singleton, List.not_mem_nil, or_false] at he
        rcases he with rfl | rfl | he | rfl
        · exact absurd hp (by simp [Ev.isPutAttempt])
        · exact absurd hp (by simp [Ev.isPutAttempt])
        · exact hmem he
        · exact absurd hp (by simp [Ev.isPutAttempt])
  · intro hall
    have hput : put_item_with_retry store (env "TABLE_NAME")
        [("year", Attr.N (pyStr jy)), ("title", Attr.S (pyStr jt)),
         ("id", Attr.S (pyStr ji))] rid =
        ([Ev.putAttempt (env "TABLE_NAME")
            [("year", Attr.N (pyStr jy)), ("title", Attr.S (pyStr jt)),
             ("id", Attr.S (pyStr ji))]], Except.ok true) := by
      unfold put_item_with_retry
      exact putRetryGo_step_ok store _ _ rid 3 0 2 (hall 0)
    have hbody : handlerBody loads store (env "TABLE_NAME") rid fid
        req.body =
        (Ev.processingRequest rid (some ji) ::
           [Ev.putAttempt (env "TABLE_NAME")
              [("year", Attr.N (pyStr jy)), ("title", Attr.S (pyStr jt)),
               ("id", Attr.S (pyStr ji))]] ++
           [Ev.writeSuccess rid (env "TABLE_NAME") (pyStr ji)],
         Except.ok successResponse) := by
      rw [hb]
      simp [handlerBody, hbt, hl, Json.pyGet, Json.pyIndex, hy, ht, hi, hput]
    rw [handler_of_body_ok loads store env rid fid req _ _ hbody]
    simp

/-- C1 witness: a concrete valid body is written with its three fields
stringified and answered with the 200 envelope. -/
theorem handler_valid_body_exact_fields_witness :
    handler
        (fun _ => Except.ok (Json.obj
          [("id", Json.str "movie-1"), ("year", Json.num 2012),
           ("title", Json.str "Spider-Man")]))
        (fun _ => StoreResult.ok) (fun _ => some "demo_table")
        "req-1" "fresh-1"
        { body := some "x", sourceIp := none, httpMethod := none,
          path := none } =
      ([Ev.requestReceived "req-1" none none none,
        Ev.processingRequest "req-1" (some (Json.str "movie-1")),
        Ev.putAttempt (some "demo_table")
          [("year", Attr.N "2012"), ("title", Attr.S "Spider-Man"),
           ("id", Attr.S "movie-1")],
        Ev.writeSuccess "req-1" (some "demo_table") "movie-1"],
       Except.ok successResponse) := by
  have h := (handler_valid_body_exact_fields
    (fun _ => Except.ok (Json.obj
      [("id", Json.str "movie-1"), ("year", Json.num 2012),
       ("title", Json.str "Spider-Man")]))
    (fun _ => StoreResult.ok) (fun _ => some "demo_table")
    "req-1" "fresh-1"
    { body := some "x", sourceIp := none, httpMethod := none, path := none }
    "x" _ _ _ _ rfl (by decide) rfl rfl rfl rfl).2.2 (fun n => rfl)
  exact h

/-- C7: for every request whose body is absent or empty, and a store that
accepts the write, the handler writes the default record — fixed year "2012",
fixed title "The Amazing Spider-Man 2", and the freshly generated identifier —
and returns the same 200 success envelope as the caller-data path. -/
theorem handler_default_record (loads : String → Except PyExc Json)
    (store : Nat → StoreResult) (env : String → Option String)
    (rid fid : String) (req : Request)
    (hb : bodyTruthy req.body = false) (hs : store 0 = StoreResult.ok) :
    handler loads store env rid fid req =
      ([Ev.requestReceived rid req.sourceIp req.httpMethod req.path,
        Ev.processingDefaultRequest rid,
        Ev.putAttempt (env "TABLE_NAME")
          [("year", Attr.N "2012"),
           ("title", Attr.S "The Amazing Spider-Man 2"),
           ("id", Attr.S fid)],
        Ev.writeSuccess rid (env "TABLE_NAME") fid],
       Except.ok successResponse) := by
  have hput : put_item_with_retry store (env "TABLE_NAME")
      [("year", Attr.N "2012"),
       ("title", Attr.S "The Amazing Spider-Man 2"),
       ("id", Attr.S fid)] rid =
      ([Ev.putAttempt (env "TABLE_NAME")
          [("year", Attr.N "2012"),
           ("title", Attr.S "The Amazing Spider-Man 2"),
           ("id", Attr.S fid)]], Except.ok true) := by
    unfold put_item_with_retry
    exact putRetryGo_step_ok store _ _ rid 3 0 2 hs
  have hbody : handlerBody loads store (env "TABLE_NAME") rid fid req.body =
      (Ev.processingDefaultRequest rid ::
         [Ev.putAttempt (env "TABLE_NAME")
            [("year", Attr.N "2012"),
             ("title", Attr.S "The Amazing Spider-Man 2"),
             ("id", Attr.S fid)]] ++
         [Ev.writeSuccess rid (env "TABLE_NAME") fid],
       Except.ok successResponse) := by
    simp [handlerBody, hb, hput]
  rw [handler_of_body_ok loads store env rid fid req _ _ hbody]
  simp

/-- C7 witness: a request with a `None` body writes the default record under
a fresh identifier and gets the 200 envelope. -/
theorem handler_default_record_witness :
    handler (fun _ => Except.error (PyExc.jsonDecodeError "unused"))
        (fun _ => StoreResult.ok) (fun _ => some "demo_table")
        "req-2" "0a1b2c"
        { body := none, sourceIp := none, httpMethod := none, path := none } =
      ([Ev.requestReceived "req-2" none none none,
        Ev.processingDefaultRequest "req-2",
        Ev.putAttempt (some "demo_table")
          [("year", Attr.N "2012"),
           ("title", Attr.S "The Amazing Spider-Man 2"),
           ("id", Attr.S "0a1b2c")],
        Ev.writeSuccess "req-2" (some "demo_table") "0a1b2c"],
       Except.ok successResponse) :=
  handler_default_record (fun _ => Except.error (PyExc.jsonDecodeError "unused"))
    (fun _ => StoreResult.ok) (fun _ => some "demo_table") "req-2" "0a1b2c"
    { body := none, sourceIp := none, httpMethod := none, path := none }
    rfl rfl

/-- C2: a store throttled on attempts 1 and 2 that succeeds on attempt 3
(default maxAttempts = 3) yields exactly the trace with two "throttled"
warning events carrying the 1-based attempt number and the computed wait,
two sleeps of 100 ms then 200 ms (backoffBase 100 ms times 2^attemptIndex),
no sleep after the final attempt, and immediate success on attempt 3; and
for every store, the loop makes at most maxAttempts `put_item` calls. -/
theorem put_retry_throttle_backoff (store : Nat → StoreResult)
    (tb : Option String) (it : DDBItem) (rid : String) (c0 c1 m0 m1 : String)
    (h0 : store 0 = StoreResult.throwClientError c0 m0)
    (hc0 : isThrottleCode c0 = true)
    (h1 : store 1 = StoreResult.throwClientError c1 m1)
    (hc1 : isThrottleCode c1 = true)
    (h2 : store 2 = StoreResult.ok) :
    put_item_with_retry store tb it rid 3 =
      ([Ev.putAttempt tb it, Ev.throttled rid 1 100 c0, Ev.sleep 100,
        Ev.putAttempt tb it, Ev.throttled rid 2 200 c1, Ev.sleep 200,
        Ev.putAttempt tb it],
       Except.ok true)
    ∧ (∀ (store2 : Nat → StoreResult) (tb2 : Option String) (it2 : DDBItem)
        (rid2 : String) (m : Nat),
        ((put_item_with_retry store2 tb2 it2 rid2 m).1.countP
          Ev.isPutAttempt) ≤ m) := by
  constructor
  · have e0 : putRetryGo store tb it rid 3 0 3 =
        (Ev.putAttempt tb it ::
           Ev.throttled rid (0 + 1) (2 ^ 0 * 100) c0 ::
           Ev.sleep (2 ^ 0 * 100) :: (putRetryGo store tb it rid 3 1 2).1,
         (putRetryGo store tb it rid 3 1 2).2) :=
      putRetryGo_step_throttle_cont store tb it rid 3 0 2 c0 m0 h0 hc0
        (by norm_num)
    have e1 : putRetryGo store tb it rid 3 1 2 =
        (Ev.putAttempt tb it ::
           Ev.throttled rid (1 + 1) (2 ^ 1 * 100) c1 ::
           Ev.sleep (2 ^ 1 * 100) :: (putRetryGo store tb it rid 3 2 1).1,
         (putRetryGo store tb it rid 3 2 1).2) :=
      putRetryGo_step_throttle_cont store tb it rid 3 1 1 c1 m1 h1 hc1
        (by norm_num)
    have e2 : putRetryGo store tb it rid 3 2 1 =
        ([Ev.putAttempt tb it], Except.ok true) :=
      putRetryGo_step_ok store tb it rid 3 2 0 h2
    unfold put_item_with_retry
    rw [e0, e1, e2]
    norm_num
  · intro store2 tb2 it2 rid2 m
    exact putRetryGo_putAttempt_count_le store2 tb2 it2 rid2 m m 0

/-- A store that raises a throttling ClientError on the first two attempts
and accepts the third. -/
def throttleTwiceStore : Nat → StoreResult := fun n =>
  if n < 2 then StoreResult.throwClientError "ThrottlingException" "Rate exceeded"
  else StoreResult.ok

/-- C2 witness: the throttle-throttle-success scenario evaluated on a
concrete store. -/
theorem put_retry_throttle_backoff_witness :
    put_item_with_retry throttleTwiceStore (some "demo_table")
        [("id", Attr.S "w")] "req-4" 3 =
      ([Ev.putAttempt (some "demo_table") [("id", Attr.S "w")],
        Ev.throttled "req-4" 1 100 "ThrottlingException", Ev.sleep 100,
        Ev.putAttempt (some "demo_table") [("id", Attr.S "w")],
        Ev.throttled "req-4" 2 200 "ThrottlingException", Ev.sleep 200,
        Ev.putAttempt (some "demo_table") [("id", Attr.S "w")]],
       Except.ok true) :=
  (put_retry_throttle_backoff throttleTwiceStore (some "demo_table")
    [("id", Attr.S "w")] "req-4" "ThrottlingException" "ThrottlingException"
    "Rate exceeded" "Rate exceeded" rfl (by decide) rfl (by decide) rfl).1

/-- C3: for a request whose body is present and non-empty, a body that fails
to decode propagates the decode error with no store write, no default-record
fallback, and no "processing_request" event (the exact trace is the
"request_received" event then the "error" event); a body that decodes to an
object missing one of the required fields raises a KeyError, again with no
store write and no default-record fallback. -/
theorem handler_malformed_body (loads : String → Except PyExc Json)
    (store : Nat → StoreResult) (env : String → Option String)
    (rid fid : String) (req : Request) (body : String)
    (hb : req.body = some body) (hne : body ≠ "") :
    (∀ e, loads body = Except.error e →
      handler loads store env rid fid req =
        ([Ev.requestReceived rid req.sourceIp req.httpMethod req.path,
          Ev.error rid e.typeName e.message],
         Except.error e))
    ∧ (∀ fields, loads body = Except.ok (Json.obj fields) →
        (List.lookup "year" fields = none ∨
          List.lookup "title" fields = none ∨
          List.lookup "id" fields = none) →
        (∃ k, (handler loads store env rid fid req).2 =
            Except.error (PyExc.keyError k))
        ∧ (∀ e ∈ (handler loads store env rid fid req).1,
            e.isPutAttempt = false)
        ∧ Ev.processingDefaultRequest rid ∉
            (handler loads store env rid fid req).1) := by
  have hbt : bodyTruthy (some body) = true := by
    simp [bodyTruthy, hne]
  constructor
  · intro e hl
    have hbody : handlerBody loads store (env "TABLE_NAME") rid fid
        req.body = ([], Except.error e) := by
      rw [hb]
      simp [handlerBody, hbt, hl]
    rw [handler_of_body_error loads store env rid fid req _ e hbody]
    simp
  · intro fields hl hmiss
    have main : ∀ k, handlerBody loads store (env "TABLE_NAME") rid fid
        req.body =
        ([Ev.processingRequest rid (List.lookup "id" fields)],
         Except.error (PyExc.keyError k)) →
        (∃ k2, (handler loads store env rid fid req).2 =
            Except.error (PyExc.keyError k2))
        ∧ (∀ e ∈ (handler loads store env rid fid req).1,
            e.isPutAttempt = false)
        ∧ Ev.processingDefaultRequest rid ∉
            (handler loads store env rid fid req).1 := by
      intro k hbody
      rw [handler_of_body_error loads store env rid fid req _ _ hbody]
      refine ⟨⟨k, rfl⟩, ?_, ?_⟩
      · intro e he
        simp at he
        rcases he with rfl | rfl | rfl <;> rfl
      · simp
    cases hy2 : List.lookup "year" fields with
    | none =>
      apply main "year"
      rw [hb]
      simp [handlerBody, hbt, hl, Json.pyGet, Json.pyIndex, hy2]
    | some jy =>
      cases ht2 : List.lookup "title" fields with
      | none =>
        apply main "title"
        rw [hb]
        simp [handlerBody, hbt, hl, Json.pyGet, Json.pyIndex, hy2, ht2]
      | some jt =>
        cases hi2 : List.lookup "id" fields with
        | none =>
          apply main "id"
          rw [hb]
          simp [handlerBody, hbt, hl, Json.pyGet, Json.pyIndex, hy2, ht2, hi2]
        | some ji =>
          exact absurd hmiss (by simp [hy2, ht2, hi2])

/-- C3 witness: a non-JSON body propagates the decode error with only the
"request_received" and "error" events — no store write, no default record,
no "processing_request" event. -/
theorem handler_malformed_body_witness :
    handler (fun _ => Except.error (PyExc.jsonDecodeError "Expecting value"))
        (fun _ => StoreResult.ok) (fun _ => some "demo_table") "req-5" "f-5"
        { body := some "not json", sourceIp := none, httpMethod := none,
          path := none } =
      ([Ev.requestReceived "req-5" none none none,
        Ev.error "req-5" "JSONDecodeError" "Expecting value"],
       Except.error (PyExc.jsonDecodeError "Expecting value")) :=
  (handler_malformed_body
    (fun _ => Except.error (PyExc.jsonDecodeError "Expecting value"))
    (fun _ => StoreResult.ok) (fun _ => some "demo_table") "req-5" "f-5"
    { body := some "not json", sourceIp := none, httpMethod := none,
      path := none }
    "not json" rfl (by decide)).1 (PyExc.jsonDecodeError "Expecting value") rfl

/-- C4: with a store throttling on all three default attempts and an absent
body, the handler's trace ends with exactly one "throttled, retries
exhausted" event followed by exactly one "error" event, the original
(third-attempt) ClientError is re-raised to the caller as an exception, and
no success response is produced. -/
theorem handler_retries_exhausted (loads : String → Except PyExc Json)
    (store : Nat → StoreResult) (env : String → Option String)
    (rid fid : String) (req : Request) (c0 c1 c2 m0 m1 m2 : String)
    (hb : bodyTruthy req.body = false)
    (h0 : store 0 = StoreResult.throwClientError c0 m0)
    (hc0 : isThrottleCode c0 = true)
    (h1 : store 1 = StoreResult.throwClientError c1 m1)
    (hc1 : isThrottleCode c1 = true)
    (h2 : store 2 = StoreResult.throwClientError c2 m2)
    (hc2 : isThrottleCode c2 = true) :
    handler loads store env rid fid req =
      ([Ev.requestReceived rid req.sourceIp req.httpMethod req.path,
        Ev.processingDefaultRequest rid,
        Ev.putAttempt (env "TABLE_NAME")
          [("year", Attr.N "2012"),
           ("title", Attr.S "The Amazing Spider-Man 2"),
           ("id", Attr.S fid)],
        Ev.throttled rid 1 100 c0, Ev.sleep 100,
        Ev.putAttempt (env "TABLE_NAME")
          [("year", Attr.N "2012"),
           ("title", Attr.S "The Amazing Spider-Man 2"),
           ("id", Attr.S fid)],
        Ev.throttled rid 2 200 c1, Ev.sleep 200,
        Ev.putAttempt (env "TABLE_NAME")
          [("year", Attr.N "2012"),
           ("title", Attr.S "The Amazing Spider-Man 2"),
           ("id", Attr.S fid)],
        Ev.throttledMaxRetries rid c2,
        Ev.error rid "ClientError" m2],
       Except.error (PyExc.clientError c2 m2))
    ∧ (handler loads store env rid fid req).1.countP Ev.isExhausted = 1
    ∧ (handler loads store env rid fid req).1.countP Ev.isErrorEvent = 1 := by
  have e0 : putRetryGo store (env "TABLE_NAME")
      [("year", Attr.N "2012"),
       ("title", Attr.S "The Amazing Spider-Man 2"),
       ("id", Attr.S fid)] rid 3 0 3 =
      (Ev.putAttempt (env "TABLE_NAME")
          [("year", Attr.N "2012"),
           ("title", Attr.S "The Amazing Spider-Man 2"),
           ("id", Attr.S fid)] ::
         Ev.throttled rid (0 + 1) (2 ^ 0 * 100) c0 ::
         Ev.sleep (2 ^ 0 * 100) ::
         (putRetryGo store (env "TABLE_NAME")
           [("year", Attr.N "2012"),
            ("title", Attr.S "The Amazing Spider-Man 2"),
            ("id", Attr.S fid)] rid 3 1 2).1,
       (putRetryGo store (env "TABLE_NAME")
         [("year", Attr.N "2012"),
          ("title", Attr.S "The Amazing Spider-Man 2"),
          ("id", Attr.S fid)] rid 3 1 2).2) :=
    putRetryGo_step_throttle_cont store _ _ rid 3 0 2 c0 m0 h0 hc0
      (by norm_num)
  have e1 : putRetryGo store (env "TABLE_NAME")
      [("year", Attr.N "2012"),
       ("title", Attr.S "The Amazing Spider-Man 2"),
       ("id", Attr.S fid)] rid 3 1 2 =
      (Ev.putAttempt (env "TABLE_NAME")
          [("year", Attr.N "2012"),
           ("title", Attr.S "The Amazing Spider-Man 2"),
           ("id", Attr.S fid)] ::
         Ev.throttled rid (1 + 1) (2 ^ 1 * 100) c1 ::
         Ev.sleep (2 ^ 1 * 100) ::
         (putRetryGo store (env "TABLE_NAME")
           [("year", Attr.N "2012"),
            ("title", Attr.S "The Amazing Spider-Man 2"),
            ("id", Attr.S fid)] rid 3 2 1).1,
       (putRetryGo store (env "TABLE_NAME")
         [("year", Attr.N "2012"),
          ("title", Attr.S "The Amazing Spider-Man 2"),
          ("id", Attr.S fid)] rid 3 2 1).2) :=
    putRetryGo_step_throttle_cont store _ _ rid 3 1 1 c1 m1 h1 hc1
      (by norm_num)
  have e2 : putRetryGo store (env "TABLE_NAME")
      [("year", Attr.N "2012"),
       ("title", Attr.S "The Amazing Spider-Man 2"),
       ("id", Attr.S fid)] rid 3 2 1 =
      ([Ev.putAttempt (env "TABLE_NAME")
          [("year", Attr.N "2012"),
           ("title", Attr.S "The Amazing Spider-Man 2"),
           ("id", Attr.S fid)],
        Ev.throttledMaxRetries rid c2],
       Except.error (PyExc.clientError c2 m2)) :=
    putRetryGo_step_throttle_last store _ _ rid 3 2 0 c2 m2 h2 hc2
      (by norm_num)
  have hput : put_item_with_retry store (env "TABLE_NAME")
      [("year", Attr.N "2012"),
       ("title", Attr.S "The Amazing Spider-Man 2"),
       ("id", Attr.S fid)] rid =
      ([Ev.putAttempt (env "TABLE_NAME")
          [("year", Attr.N "2012"),
           ("title", Attr.S "The Amazing Spider-Man 2"),
           ("id", Attr.S fid)],
        Ev.throttled rid 1 100 c0, Ev.sleep 100,
        Ev.putAttempt (env "TABLE_NAME")
          [("year", Attr.N "2012"),
           ("title", Attr.S "The Amazing Spider-Man 2"),
           ("id", Attr.S fid)],
        Ev.throttled rid 2 200 c1, Ev.sleep 200,
        Ev.putAttempt (env "TABLE_NAME")
          [("year", Attr.N "2012"),
           ("title", Attr.S "The Amazing Spider-Man 2"),
           ("id", Attr.S fid)],
        Ev.throttledMaxRetries rid c2],
       Except.error (PyExc.clientError c2 m2)) := by
    unfold put_item_with_retry
    rw [e0, e1, e2]
    norm_num
  have hbody : handlerBody loads store (env "TABLE_NAME") rid fid
      req.body =
      (Ev.processingDefaultRequest rid ::
         [Ev.putAttempt (env "TABLE_NAME")
            [("year", Attr.N "2012"),
             ("title", Attr.S "The Amazing Spider-Man 2"),
             ("id", Attr.S fid)],
          Ev.throttled rid 1 100 c0, Ev.sleep 100,
          Ev.putAttempt (env "TABLE_NAME")
            [("year", Attr.N "2012"),
             ("title", Attr.S "The Amazing Spider-Man 2"),
             ("id", Attr.S fid)],
          Ev.throttled rid 2 200 c1, Ev.sleep 200,
          Ev.putAttempt (env "TABLE_NAME")
            [("year", Attr.N "2012"),
             ("title", Attr.S "The Amazing Spider-Man 2"),
             ("id", Attr.S fid)],
          Ev.throttledMaxRetries rid c2],
       Except.error (PyExc.clientError c2 m2)) := by
    simp [handlerBody, hb, hput]
  have hfirst : handler loads store env rid fid req =
      ([Ev.requestReceived rid req.sourceIp req.httpMethod req.path,
        Ev.processingDefaultRequest rid,
        Ev.putAttempt (env "TABLE_NAME")
          [("year", Attr.N "2012"),
           ("title", Attr.S "The Amazing Spider-Man 2"),
           ("id", Attr.S fid)],
        Ev.throttled rid 1 100 c0, Ev.sleep 100,
        Ev.putAttempt (env "TABLE_NAME")
          [("year", Attr.N "2012"),
           ("title", Attr.S "The Amazing Spider-Man 2"),
           ("id", Attr.S fid)],
        Ev.throttled rid 2 200 c1, Ev.sleep 200,
        Ev.putAttempt (env "TABLE_NAME")
          [("year", Attr.N "2012"),
           ("title", Attr.S "The Amazing Spider-Man 2"),
           ("id", Attr.S fid)],
        Ev.throttledMaxRetries rid c2,
        Ev.error rid "ClientError" m2],
       Except.error (PyExc.clientError c2 m2)) := by
    rw [handler_of_body_error loads store env rid fid req _ _ hbody]
    simp [PyExc.typeName, PyExc.message]
  refine ⟨hfirst, ?_, ?_⟩
  · rw [hfirst]
    rfl
  · rw [hfirst]
    rfl

/-- A store that raises a throttling ClientError on every attempt. -/
def alwaysThrottleStore : Nat → StoreResult :=
  fun _ => StoreResult.throwClientError
    "ProvisionedThroughputExceededException" "Throughput exceeded"

/-- C4 witness: the exhaustion scenario evaluated on a concrete
always-throttling store. -/
theorem handler_retries_exhausted_witness :
    handler (fun _ => Except.error (PyExc.jsonDecodeError "unused"))
        alwaysThrottleStore (fun _ => some "demo_table") "req-6" "f-6"
        { body := none, sourceIp := none, httpMethod := none, path := none } =
      ([Ev.requestReceived "req-6" none none none,
        Ev.processingDefaultRequest "req-6",
        Ev.putAttempt (some "demo_table")
          [("year", Attr.N "2012"),
           ("title", Attr.S "The Amazing Spider-Man 2"),
           ("id", Attr.S "f-6")],
        Ev.throttled "req-6" 1 100 "ProvisionedThroughputExceededException",
        Ev.sleep 100,
        Ev.putAttempt (some "demo_table")
          [("year", Attr.N "2012"),
           ("title", Attr.S "The Amazing Spider-Man 2"),
           ("id", Attr.S "f-6")],
        Ev.throttled "req-6" 2 200 "ProvisionedThroughputExceededException",
        Ev.sleep 200,
        Ev.putAttempt (some "demo_table")
          [("year", Attr.N "2012"),
           ("title", Attr.S "The Amazing Spider-Man 2"),
           ("id", Attr.S "f-6")],
        Ev.throttledMaxRetries "req-6"
          "ProvisionedThroughputExceededException",
        Ev.error "req-6" "ClientError" "Throughput exceeded"],
       Except.error (PyExc.clientError
         "ProvisionedThroughputExceededException" "Throughput exceeded")) :=
  (handler_retries_exhausted (fun _ => Except.error (PyExc.jsonDecodeError "unused"))
    alwaysThrottleStore (fun _ => some "demo_table") "req-6" "f-6"
    { body := none, sourceIp := none, httpMethod := none, path := none }
    "ProvisionedThroughputExceededException"
    "ProvisionedThroughputExceededException"
    "ProvisionedThroughputExceededException"
    "Throughput exceeded" "Throughput exceeded" "Throughput exceeded"
    rfl rfl (by decide) rfl (by decide) rfl (by decide)).1

/-- C5 counterexample: against a store that throttles every attempt,
`put_item_with_retry` at the default budget of 3 raises the ClientError
instead of returning the boolean False the documented contract promises. -/
theorem put_boolean_contract_cex :
    (put_item_with_retry alwaysThrottleStore (some "demo_table")
        [("year", Attr.N "2012"),
         ("title", Attr.S "The Amazing Spider-Man 2"),
         ("id", Attr.S "cex")] "req-7" 3).2 =
      Except.error (PyExc.clientError
        "ProvisionedThroughputExceededException" "Throughput exceeded")
    ∧ ¬ (put_item_with_retry alwaysThrottleStore (some "demo_table")
        [("year", Attr.N "2012"),
         ("title", Attr.S "The Amazing Spider-Man 2"),
         ("id", Attr.S "cex")] "req-7" 3).2 = Except.ok false := by
  have h1 : (put_item_with_retry alwaysThrottleStore (some "demo_table")
      [("year", Attr.N "2012"),
       ("title", Attr.S "The Amazing Spider-Man 2"),
       ("id", Attr.S "cex")] "req-7" 3).2 =
      Except.error (PyExc.clientError
        "ProvisionedThroughputExceededException" "Throughput exceeded") := rfl
  refine ⟨h1, ?_⟩
  rw [h1]
  simp

/-- C5 (amended): `put_item_with_retry` returns a boolean only on success —
any boolean outcome is True — and on exhausting its budget against a store
that throttles every attempt it re-raises the throttling ClientError rather
than returning False. -/
theorem put_boolean_contract_amended (store : Nat → StoreResult)
    (tb : Option String) (it : DDBItem) (rid : String) (m : Nat)
    (hm : 1 ≤ m) :
    (∀ b, (put_item_with_retry store tb it rid m).2 = Except.ok b →
      b = true)
    ∧ (∀ c msg, isThrottleCode c = true →
        (∀ n, n < m → store n = StoreResult.throwClientError c msg) →
        (put_item_with_retry store tb it rid m).2 =
          Except.error (PyExc.clientError c msg)) := by
  constructor
  · intro b h
    cases b with
    | false =>
      exact absurd h (putRetryGo_ne_false store tb it rid m m 0 (by omega) hm)
    | true => rfl
  · intro c msg hc hall
    exact putRetryGo_all_throttle store tb it rid m c msg hc hall m 0
      (by omega) hm

/-- C5 witness: the amended contract evaluated on a concrete
always-throttling store. -/
theorem put_boolean_contract_amended_witness :
    (put_item_with_retry alwaysThrottleStore (some "demo_table")
        [("id", Attr.S "w5")] "req-8" 3).2 =
      Except.error (PyExc.clientError
        "ProvisionedThroughputExceededException" "Throughput exceeded") :=
  (put_boolean_contract_amended alwaysThrottleStore (some "demo_table")
    [("id", Attr.S "w5")] "req-8" 3 (by norm_num)).2
    "ProvisionedThroughputExceededException" "Throughput exceeded"
    (by decide) (fun n _ => rfl)

/-- C6: a non-transient store error — a ClientError whose code is not a
throttling code, or an exception that is not a ClientError at all — is
re-raised after exactly one `put_item` call, with no retry, no backoff
sleep, and no throttle log event. -/
theorem put_nontransient_immediate_reraise (store : Nat → StoreResult)
    (tb : Option String) (it : DDBItem) (rid : String) (m : Nat)
    (hm : 1 ≤ m) :
    (∀ c msg, store 0 = StoreResult.throwClientError c msg →
      isThrottleCode c = false →
      put_item_with_retry store tb it rid m =
        ([Ev.putAttempt tb it], Except.error (PyExc.clientError c msg)))
    ∧ (∀ ty msg, store 0 = StoreResult.throwOther ty msg →
      put_item_with_retry store tb it rid m =
        ([Ev.putAttempt tb it], Except.error (PyExc.other ty msg))) := by
  obtain ⟨k, rfl⟩ : ∃ k, m = k + 1 := ⟨m - 1, by omega⟩
  constructor
  · intro c msg hs hc
    unfold put_item_with_retry
    exact putRetryGo_step_nonthrottle store tb it rid (k + 1) 0 k c msg hs hc
  · intro ty msg hs
    unfold put_item_with_retry
    exact putRetryGo_step_other store tb it rid (k + 1) 0 k ty msg hs

/-- C6 witness: a ValidationException ClientError propagates after a single
attempt with no sleep and no throttle event. -/
theorem put_nontransient_immediate_reraise_witness :
    put_item_with_retry
        (fun _ => StoreResult.throwClientError "ValidationException"
          "Invalid item") (some "demo_table")
        [("id", Attr.S "w6")] "req-9" 3 =
      ([Ev.putAttempt (some "demo_table") [("id", Attr.S "w6")]],
       Except.error (PyExc.clientError "ValidationException"
         "Invalid item")) :=
  (put_nontransient_immediate_reraise
    (fun _ => StoreResult.throwClientError "ValidationException"
      "Invalid item") (some "demo_table")
    [("id", Attr.S "w6")] "req-9" 3 (by norm_num)).1
    "ValidationException" "Invalid item" rfl (by decide)

/-- C8: for every input the handler either returns the 200 success envelope
or raises; when it raises, the last logged event is the "error" event with
the exception's category (type name) and message, so no failure is swallowed
and no non-200 response is constructed. -/
theorem handler_success_or_raise (loads : String → Except PyExc Json)
    (store : Nat → StoreResult) (env : String → Option String)
    (rid fid : String) (req : Request) :
    (∀ r, (handler loads store env rid fid req).2 = Except.ok r →
      r = successResponse)
    ∧ (∀ e, (handler loads store env rid fid req).2 = Except.error e →
      (handler loads store env rid fid req).1.getLast? =
        some (Ev.error rid e.typeName e.message)) := by
  constructor
  · exact fun r h => handler_ok_eq loads store env rid fid req r h
  · intro e h
    cases hres : handlerBody loads store (env "TABLE_NAME") rid fid
        req.body with
    | mk evs r2 =>
      cases r2 with
      | ok r0 =>
        rw [handler_of_body_ok loads store env rid fid req evs r0 hres] at h
        exact absurd h (by simp)
      | error e2 =>
        have hh := handler_of_body_error loads store env rid fid req evs e2
          hres
        rw [hh] at h
        have he : e2 = e := Except.error.inj h
        subst he
        rw [hh]
        show ((Ev.requestReceived rid req.sourceIp req.httpMethod req.path ::
            evs) ++ [Ev.error rid e2.typeName e2.message]).getLast? =
          some (Ev.error rid e2.typeName e2.message)
        rw [List.getLast?_append_cons]
        rfl

/-- C8 witness: a store failure that is not a ClientError ends the trace
with the "error" event carrying its type name and message. -/
theorem handler_success_or_raise_witness :
    (handler (fun _ => Except.error (PyExc.jsonDecodeError "unused"))
        (fun _ => StoreResult.throwOther "Exception" "boom")
        (fun _ => some "demo_table") "req-10" "f-10"
        { body := none, sourceIp := none, httpMethod := none,
          path := none }).1.getLast? =
      some (Ev.error "req-10" "Exception" "boom") :=
  (handler_success_or_raise
    (fun _ => Except.error (PyExc.jsonDecodeError "unused"))
    (fun _ => StoreResult.throwOther "Exception" "boom")
    (fun _ => some "demo_table") "req-10" "f-10"
    { body := none, sourceIp := none, httpMethod := none,
      path := none }).2 (PyExc.other "Exception" "boom") rfl

/-- C9: the total backoff sleep of any `put_item_with_retry` invocation is
at most backoffBase (100 ms) times (2^0 + ... + 2^(maxAttempts - 2)); at the
defaults, a store throttling every attempt sleeps exactly 100 + 200 = 300 ms
before the throttled failure. -/
theorem put_sleep_total_bound (store : Nat → StoreResult) (tb : Option String)
    (it : DDBItem) (rid : String) (m : Nat) :
    sleepTotal (put_item_with_retry store tb it rid m).1 ≤
      100 * Finset.sum (Finset.range (m - 1)) (fun i => 2 ^ i)
    ∧ (∀ c msg, isThrottleCode c = true →
        (∀ n, n < 3 → store n = StoreResult.throwClientError c msg) →
        sleepTotal (put_item_with_retry store tb it rid 3).1 = 300) := by
  constructor
  · have h := putRetryGo_sleepTotal_le store tb it rid m m 0
    have heq : Finset.sum (Finset.Ico 0 (m - 1)) (fun i => 100 * 2 ^ i) =
        100 * Finset.sum (Finset.range (m - 1)) (fun i => 2 ^ i) := by
      rw [Finset.range_eq_Ico, Finset.mul_sum]
    rw [heq] at h
    exact h
  · intro c msg hc hall
    have e0 : putRetryGo store tb it rid 3 0 3 =
        (Ev.putAttempt tb it ::
           Ev.throttled rid (0 + 1) (2 ^ 0 * 100) c ::
           Ev.sleep (2 ^ 0 * 100) :: (putRetryGo store tb it rid 3 1 2).1,
         (putRetryGo store tb it rid 3 1 2).2) :=
      putRetryGo_step_throttle_cont store tb it rid 3 0 2 c msg
        (hall 0 (by norm_num)) hc (by norm_num)
    have e1 : putRetryGo store tb it rid 3 1 2 =
        (Ev.putAttempt tb it ::
           Ev.throttled rid (1 + 1) (2 ^ 1 * 100) c ::
           Ev.sleep (2 ^ 1 * 100) :: (putRetryGo store tb it rid 3 2 1).1,
         (putRetryGo store tb it rid 3 2 1).2) :=
      putRetryGo_step_throttle_cont store tb it rid 3 1 1 c msg
        (hall 1 (by norm_num)) hc (by norm_num)
    have e2 : putRetryGo store tb it rid 3 2 1 =
        ([Ev.putAttempt tb it, Ev.throttledMaxRetries rid c],
         Except.error (PyExc.clientError c msg)) :=
      putRetryGo_step_throttle_last store tb it rid 3 2 0 c msg
        (hall 2 (by norm_num)) hc (by norm_num)
    unfold put_item_with_retry
    rw [e0, e1, e2]
    simp [sleepTotal]

/-- C9 witness: the exact 300 ms total sleep on a concrete always-throttling
store at the defaults. -/
theorem put_sleep_total_bound_witness :
    sleepTotal (put_item_with_retry alwaysThrottleStore (some "demo_table")
        [("id", Attr.S "w9")] "req-11" 3).1 = 300 :=
  (put_sleep_total_bound alwaysThrottleStore (some "demo_table")
    [("id", Attr.S "w9")] "req-11" 3).2
    "ProvisionedThroughputExceededException" "Throughput exceeded"
    (by decide) (fun n _ => rfl)

/-- C10: for every max_retries ≥ 1, `put_item_with_retry` either returns
True or raises an exception; the trailing `return False` after the loop is
unreachable, so no caller can observe a False result. -/
theorem put_true_or_raises (store : Nat → StoreResult) (tb : Option String)
    (it : DDBItem) (rid : String) (m : Nat) (hm : 1 ≤ m) :
    (put_item_with_retry store tb it rid m).2 = Except.ok true ∨
    ∃ e, (put_item_with_retry store tb it rid m).2 = Except.error e := by
  have hne := putRetryGo_ne_false store tb it rid m m 0 (by omega) hm
  cases hres : (put_item_with_retry store tb it rid m).2 with
  | ok b =>
    cases b with
    | false => exact absurd hres hne
    | true => exact Or.inl rfl
  | error e => exact Or.inr ⟨e, rfl⟩

/-- C10 witness: the dichotomy evaluated on a concrete accepting store. -/
theorem put_true_or_raises_witness :
    (put_item_with_retry (fun _ => StoreResult.ok) (some "demo_table")
        [("id", Attr.S "w10")] "req-12" 3).2 = Except.ok true ∨
    ∃ e, (put_item_with_retry (fun _ => StoreResult.ok) (some "demo_table")
        [("id", Attr.S "w10")] "req-12" 3).2 = Except.error e :=
  put_true_or_raises (fun _ => StoreResult.ok) (some "demo_table")
    [("id", Attr.S "w10")] "req-12" 3 (by norm_num)

end ApigwHandler
